import Mathlib

/-!
Shallow embedding of the encrypted-vault subsystem of keyguard-vault-keeper:
the key/cipher layer (`src/utils/encryption.ts`, whose functions also appear
alongside `SecurityQuestionsSetup.tsx`), the two storage backends
(`src/utils/storage.ts` LocalStorage and `src/utils/sqliteStorage.ts`
SQLiteStorage), the session/auth controller (`src/contexts/AuthContext.tsx`)
and the recovery step machine (`src/components/auth/PasswordRecovery.tsx`).

Modelling conventions:
* JavaScript strings are Lean `String`s.  A plaintext that is fed to the
  cipher is a `PlainData`: either an arbitrary string or the
  `JSON.stringify` image of a credential list (the constructor models the
  injective JSON encoding, and `JSON.parse` is its partial inverse).
* `CryptoJS.PBKDF2(password, salt, 10000 iter, 8 words)` is modelled as the
  record of its inputs (`DerivedKey`); the hex rendering `.toString()` of a
  256-bit PBKDF2 output is treated as a collision-free injective encoding,
  so the record itself stands for the derived-key string.
* `CryptoJS.AES.encrypt(data, key)` produces a self-contained blob (the real
  blob embeds a random salt/IV); it is modelled as the pair of the plaintext
  and the key, and decryption with the matching key recovers the plaintext.
  The wrong-key branch of `decryptData` is modelled as the error the source
  throws (`Failed to decrypt data. ...`); whether the underlying
  unauthenticated AES-CBC always raises on a wrong key is a property of the
  CryptoJS library, not of this repository, and no theorem below relies on
  that branch being exact beyond the fact that it is not a successful parse.
* Stateful classes become records; `throw` becomes `Except.error`; the
  `try/catch` blocks of the source become the corresponding `match`es.
-/

/-- One PBKDF2 invocation: `CryptoJS.PBKDF2(password, salt, { keySize: 256/32,
iterations: 10000 })`.  The record of inputs stands for the derived key. -/
structure DerivedKey where
  password : String
  salt : String
  iterations : Nat
  keySize : Nat
deriving DecidableEq, Repr

/-- `CryptoJS.PBKDF2` with the fixed parameters used throughout the source. -/
def pbkdf2 (password salt : String) : DerivedKey :=
  { password := password, salt := salt, iterations := 10000, keySize := 8 }

/-- The fixed cipher-purpose salt in `encryptData`/`decryptData`. -/
def encryptionSalt : String := "vault-keeper-salt"

/-- The fixed verification-purpose salt in `hashMasterPassword`. -/
def verificationSalt : String := "vault-keeper-verification-salt"

/-- Custom field of a credential entry (`BaseField` in `storage.ts`). -/
structure BaseField where
  name : String
  value : String
  isSecret : Option Bool
deriving DecidableEq, Repr

/-- `CredentialType` union from `storage.ts`. -/
inductive CredentialType where
  | website | app | email | cctv | doorCode | apiKey | software
  | financialBanking | socialMedia | gaming | networking | professional
  | digital | other
deriving DecidableEq, Repr

/-- A credential entry (`PasswordEntry` in `storage.ts`; optional TS fields
become `Option`). -/
structure PasswordEntry where
  id : String
  title : String
  username : String
  password : String
  url : Option String
  category : String
  subcategory : Option String
  notes : Option String
  lastModified : String
  favorite : Option Bool
  credentialType : CredentialType
  customFields : Option (List BaseField)
deriving DecidableEq, Repr

/-- A JavaScript string that enters or leaves the cipher layer: either raw
text, or `JSON.stringify` of a credential list (injective encoding). -/
inductive PlainData where
  | str (s : String)
  | entriesJson (es : List PasswordEntry)
deriving DecidableEq, Repr

/-- `JSON.parse(...) as PasswordEntry[]`: recovers the list from its
stringified form; an arbitrary non-JSON string throws. -/
def jsonParseEntries : PlainData → Except String (List PasswordEntry)
  | PlainData.entriesJson es => Except.ok es
  | PlainData.str _ => Except.error "Unexpected token in JSON"

/-- An AES blob as produced by `CryptoJS.AES.encrypt(data, key.toString())`:
self-contained, carrying the plaintext under the derived key. -/
structure Ciphertext where
  data : PlainData
  key : DerivedKey
deriving DecidableEq, Repr

/-- `encryptData(data, masterPassword)` from the encryption utility: derives
the cipher key with the fixed encryption salt and AES-encrypts. -/
def encryptData (data : PlainData) (masterPassword : String) : Ciphertext :=
  { data := data, key := pbkdf2 masterPassword encryptionSalt }

/-- `decryptData(encryptedData, masterPassword)`: derives the same key and
decrypts; a mismatching key yields the thrown decryption error. -/
def decryptData (encryptedData : Ciphertext) (masterPassword : String) :
    Except String PlainData :=
  if encryptedData.key = pbkdf2 masterPassword encryptionSalt then
    Except.ok encryptedData.data
  else
    Except.error "Failed to decrypt data. Incorrect password or corrupted data."

/-- `hashMasterPassword(masterPassword)`: PBKDF2 with the distinct
verification salt; the (hex) digest is the modelled key record. -/
def hashMasterPassword (masterPassword : String) : DerivedKey :=
  pbkdf2 masterPassword verificationSalt

/-- `verifyMasterPassword(masterPassword, storedHash)`: recomputes the hash
and compares with `===`. -/
def verifyMasterPassword (masterPassword : String) (storedHash : DerivedKey) :
    Bool :=
  decide (hashMasterPassword masterPassword = storedHash)

/-- C1: for every password P and plaintext D, decryptData(encryptData(D, P), P)
returns D — encrypt-then-decrypt under the same password is the identity. -/
theorem c1_encrypt_decrypt_roundtrip (d : PlainData) (p : String) :
    decryptData (encryptData d p) p = Except.ok d := by
  simp [decryptData, encryptData]

/-- C6: verifyMasterPassword accepts the hash of the same password and rejects
the hash under any distinct password, and hashMasterPassword is
deterministic (equal inputs give the equal digest). -/
theorem c6_hash_verify (p q : String) (hne : q ≠ p) :
    verifyMasterPassword p (hashMasterPassword p) = true ∧
    verifyMasterPassword q (hashMasterPassword p) = false ∧
    hashMasterPassword p = hashMasterPassword p := by
  refine ⟨by simp [verifyMasterPassword], ?_, rfl⟩
  simp [verifyMasterPassword, hashMasterPassword, pbkdf2]
  exact hne

/-- Witness for C6 at concrete passwords. -/
theorem c6_hash_verify_witness :
    verifyMasterPassword "Secret123!" (hashMasterPassword "Secret123!") = true ∧
    verifyMasterPassword "wrong" (hashMasterPassword "Secret123!") = false ∧
    hashMasterPassword "Secret123!" = hashMasterPassword "Secret123!" :=
  c6_hash_verify "Secret123!" "wrong" (by decide)

/-- A security question with its enrolled answer (`SecurityQuestion` in
`SecurityQuestionsSetup.tsx`). -/
structure SecurityQuestion where
  question : String
  answer : String
deriving DecidableEq, Repr

/-- A value held in a browser key/value store or in the `vault_settings`
table: a master-password hash digest, a serialized security-question list,
an encrypted blob, or any other text. -/
inductive SVal where
  | hash (h : DerivedKey)
  | questions (qs : List SecurityQuestion)
  | blob (c : Ciphertext)
  | text (s : String)
deriving DecidableEq, Repr

/-- Lookup by key in an association list (models `localStorage.getItem` and
`SELECT value FROM vault_settings WHERE key = ...`). -/
def lookupKV {β : Type} (k : String) : List (String × β) → Option β
  | [] => none
  | (k2, v) :: t => if k2 = k then some v else lookupKV k t

/-- Upsert by key (models `localStorage.setItem` and
`INSERT OR REPLACE`). -/
def upsertKV {β : Type} (k : String) (v : β) : List (String × β) → List (String × β)
  | [] => [(k, v)]
  | (k2, v2) :: t => if k2 = k then (k, v) :: t else (k2, v2) :: upsertKV k v t

/-- Delete by key (models `localStorage.removeItem` and
`DELETE ... WHERE key = ...`). -/
def removeKV {β : Type} (k : String) : List (String × β) → List (String × β)
  | [] => []
  | (k2, v2) :: t => if k2 = k then removeKV k t else (k2, v2) :: removeKV k t

theorem lookupKV_upsertKV_self {β : Type} (k : String) (v : β)
    (l : List (String × β)) : lookupKV k (upsertKV k v l) = some v := by
  induction l with
  | nil => simp [upsertKV, lookupKV]
  | cons h t ih =>
    by_cases hk : h.1 = k
    · simp [upsertKV, hk, lookupKV]
    · simp [upsertKV, hk, lookupKV, ih]

theorem lookupKV_upsertKV_ne {β : Type} {k k2 : String} (v : β)
    (l : List (String × β)) (hne : k2 ≠ k) :
    lookupKV k (upsertKV k2 v l) = lookupKV k l := by
  induction l with
  | nil => simp [upsertKV, lookupKV, hne]
  | cons h t ih =>
    obtain ⟨a, b⟩ := h
    by_cases hk : a = k2
    · subst hk
      simp [upsertKV, lookupKV, hne]
    · simp [upsertKV, hk, lookupKV, ih]

theorem lookupKV_removeKV_self {β : Type} (k : String)
    (l : List (String × β)) : lookupKV k (removeKV k l) = none := by
  induction l with
  | nil => simp [removeKV, lookupKV]
  | cons h t ih =>
    by_cases hk : h.1 = k
    · simp [removeKV, hk, ih]
    · simp [removeKV, hk, lookupKV, ih]

theorem lookupKV_removeKV_ne {β : Type} {k k2 : String}
    (l : List (String × β)) (hne : k2 ≠ k) :
    lookupKV k (removeKV k2 l) = lookupKV k l := by
  induction l with
  | nil => simp [removeKV, lookupKV]
  | cons h t ih =>
    obtain ⟨a, b⟩ := h
    by_cases hk : a = k2
    · subst hk
      simp [removeKV, lookupKV, ih, hne]
    · simp [removeKV, hk, lookupKV, ih]

/-- `localStorage` key for the master hash in `storage.ts` (`MASTER_HASH_KEY`). -/
def masterHashKey : String := "vault_master_hash"

/-- `localStorage` key for the encrypted blob in `storage.ts` (`PASSWORDS_KEY`). -/
def passwordsKey : String := "vault_passwords"

/-- The combined state of the `LocalStorage` service of `storage.ts` and the
`AuthContext` session flag: the browser key/value store, the in-memory
session master password, and `isAuthenticated`. -/
structure AuthState where
  store : List (String × SVal)
  masterPassword : Option String
  isAuthenticated : Bool
deriving DecidableEq, Repr

/-- `LocalStorage.getPasswords`: throws when no session master password is
set; otherwise reads the blob, and any decryption/parse failure is caught
and converted into the empty list (`catch ... return []`). -/
def localGetPasswords (s : AuthState) : Except String (List PasswordEntry) :=
  match s.masterPassword with
  | none => Except.error "Master password not set"
  | some mp =>
    match lookupKV passwordsKey s.store with
    | none => Except.ok []
    | some (SVal.blob ct) =>
      match decryptData ct mp with
      | Except.ok d =>
        match jsonParseEntries d with
        | Except.ok es => Except.ok es
        | Except.error _ => Except.ok []
      | Except.error _ => Except.ok []
    | some _ => Except.ok []

/-- `LocalStorage.savePasswords`: throws when no session master password is
set; otherwise encrypts the stringified list and stores it, returning true. -/
def localSavePasswords (s : AuthState) (passwords : List PasswordEntry) :
    Except String (Bool × AuthState) :=
  match s.masterPassword with
  | none => Except.error "Master password not set"
  | some mp =>
    let encrypted := encryptData (PlainData.entriesJson passwords) mp
    Except.ok (true,
      { s with store := upsertKV passwordsKey (SVal.blob encrypted) s.store })

/-- `LocalStorage.storeMasterPasswordHash`. -/
def storeMasterPasswordHash (s : AuthState) (h : DerivedKey) : AuthState :=
  { s with store := upsertKV masterHashKey (SVal.hash h) s.store }

/-- `LocalStorage.getMasterPasswordHash`. -/
def getMasterPasswordHash (s : AuthState) : Option DerivedKey :=
  match lookupKV masterHashKey s.store with
  | some (SVal.hash h) => some h
  | _ => none

/-- `LocalStorage.setMasterPassword`. -/
def setMasterPassword (s : AuthState) (p : String) : AuthState :=
  { s with masterPassword := some p }

/-- `LocalStorage.hasMasterPasswordSetup`. -/
def hasMasterPasswordSetup (s : AuthState) : Bool :=
  (lookupKV masterHashKey s.store).isSome

/-- `LocalStorage.resetVault` exactly as written: the source calls
`localStorage.removeItem(this.MASTER_PASSWORD_KEY)`, but the class declares
no `MASTER_PASSWORD_KEY` property (its field is `MASTER_HASH_KEY`), so the
argument is `undefined` and the removed key is its string coercion
"undefined"; then the passwords key is removed and the session password is
cleared.  The `vault_master_hash` entry is never removed. -/
def localResetVault (s : AuthState) : AuthState :=
  { s with
    store := removeKV passwordsKey (removeKV "undefined" s.store)
    masterPassword := none }

/-- `AuthContext.login(password)`: fails with no stored hash; verifies the
password against the stored hash; on success records the session password
and authenticates. -/
def login (s : AuthState) (password : String) : Bool × AuthState :=
  match getMasterPasswordHash s with
  | none => (false, s)
  | some storedHash =>
    if verifyMasterPassword password storedHash then
      (true, { s with masterPassword := some password, isAuthenticated := true })
    else
      (false, s)

/-- `AuthContext.logout()`: clears the session password and the flag. -/
def logout (s : AuthState) : AuthState :=
  { s with masterPassword := none, isAuthenticated := false }

/-- `AuthContext.updateMasterPassword(currentPassword, newPassword)`: refuses
on a missing hash or a failed verification; otherwise reads the collection
(a thrown `Master password not set` is caught by the outer catch before any
mutation), stores the new hash, switches the session password and re-saves
the collection under it. -/
def updateMasterPassword (s : AuthState) (currentPassword newPassword : String) :
    Bool × AuthState :=
  match getMasterPasswordHash s with
  | none => (false, s)
  | some storedHash =>
    if verifyMasterPassword currentPassword storedHash then
      match localGetPasswords s with
      | Except.error _ => (false, s)
      | Except.ok passwords =>
        let s1 := storeMasterPasswordHash s (hashMasterPassword newPassword)
        let s2 := setMasterPassword s1 newPassword
        match localSavePasswords s2 passwords with
        | Except.ok (_, s3) => (true, s3)
        | Except.error _ => (false, s2)
    else
      (false, s)

/-- `AuthContext.resetPasswordWithSecurityQuestions(newPassword)`: stores the
new hash, switches the session password, and tries to read the collection;
if that read throws, the collection is re-initialized to the empty list. -/
def resetPasswordWithSecurityQuestions (s : AuthState) (newPassword : String) :
    Bool × AuthState :=
  let s1 := storeMasterPasswordHash s (hashMasterPassword newPassword)
  let s2 := setMasterPassword s1 newPassword
  match localGetPasswords s2 with
  | Except.error _ =>
    match localSavePasswords s2 [] with
    | Except.ok (_, s3) => (true, { s3 with isAuthenticated := true })
    | Except.error _ => (false, s2)
  | Except.ok _ => (true, { s2 with isAuthenticated := true })

/-- Settings key for the master hash in `sqliteStorage.ts`
(`MASTER_HASH_KEY`). -/
def sqliteMasterHashKey : String := "master_hash"

/-- Settings key for the security questions in `sqliteStorage.ts`
(`SECURITY_QUESTIONS_KEY`). -/
def sqliteQuestionsKey : String := "security_questions"

/-- Row id of the single credentials blob in `vault_passwords`. -/
def sqlitePasswordsRowId : String := "passwords"

/-- The two relations of the embedded SQL store: `vault_settings(key, value)`
and `vault_passwords(id, data)`. -/
structure SqlDb where
  settings : List (String × SVal)
  passwords : List (String × Ciphertext)
deriving DecidableEq, Repr

/-- State of the `SQLiteStorage` service: the database handle (absent when
the engine failed to come up) and the in-memory session password. -/
structure SqliteState where
  db : Option SqlDb
  masterPassword : Option String
deriving DecidableEq, Repr

/-- `SQLiteStorage.getSettingValue(key)`. -/
def sqliteGetSetting (s : SqliteState) (k : String) : Option SVal :=
  match s.db with
  | none => none
  | some d => lookupKV k d.settings

/-- `SQLiteStorage.hasMasterPasswordSetup`. -/
def sqliteHasMasterPasswordSetup (s : SqliteState) : Bool :=
  (sqliteGetSetting s sqliteMasterHashKey).isSome

/-- `SQLiteStorage.getPasswords`: throws when no session master password is
set (before touching the table); otherwise reads the single blob row, and
any decryption/parse failure — and a null database handle — is caught and
converted into the empty list. -/
def sqliteGetPasswords (s : SqliteState) : Except String (List PasswordEntry) :=
  match s.masterPassword with
  | none => Except.error "Master password not set"
  | some mp =>
    match s.db with
    | none => Except.ok []
    | some d =>
      match lookupKV sqlitePasswordsRowId d.passwords with
      | none => Except.ok []
      | some ct =>
        match decryptData ct mp with
        | Except.ok dd =>
          match jsonParseEntries dd with
          | Except.ok es => Except.ok es
          | Except.error _ => Except.ok []
        | Except.error _ => Except.ok []

/-- `SQLiteStorage.savePasswords`: throws when no session master password is
set; with a null database handle the caught null-assertion failure yields
false; otherwise upserts the encrypted blob row and returns true. -/
def sqliteSavePasswords (s : SqliteState) (passwords : List PasswordEntry) :
    Except String (Bool × SqliteState) :=
  match s.masterPassword with
  | none => Except.error "Master password not set"
  | some mp =>
    match s.db with
    | none => Except.ok (false, s)
    | some d =>
      let encrypted := encryptData (PlainData.entriesJson passwords) mp
      let d2 : SqlDb :=
        { d with passwords := upsertKV sqlitePasswordsRowId encrypted d.passwords }
      Except.ok (true, { s with db := some d2 })

/-- `SQLiteStorage.resetVault`: deletes the master-hash setting, the
security-questions setting and the blob row, then clears the session
password (with a null handle the caught null-assertion failure leaves the
state as it was). -/
def sqliteResetVault (s : SqliteState) : SqliteState :=
  match s.db with
  | none => s
  | some d =>
    let d2 : SqlDb :=
      { settings :=
          removeKV sqliteQuestionsKey (removeKV sqliteMasterHashKey d.settings)
        passwords := removeKV sqlitePasswordsRowId d.passwords }
    { db := some d2, masterPassword := none }

/-- A portable binary snapshot of the whole store, as produced by
`db.export()`; SQLite serialization round-trips the table contents, so the
snapshot is modelled as the content it serializes. -/
structure Snapshot where
  content : SqlDb
deriving DecidableEq, Repr

/-- `SQLiteStorage.exportDatabase`: null without a handle, else the
serialized store. -/
def exportDatabase (s : SqliteState) : Option Snapshot :=
  match s.db with
  | none => none
  | some d => some { content := d }

/-- `SQLiteStorage.importDatabase(data)`: replaces the handle with a database
loaded from the snapshot and reports success. -/
def importDatabase (s : SqliteState) (data : Snapshot) : Bool × SqliteState :=
  (true, { s with db := some data.content })

/-- Whitespace as stripped by the JavaScript `trim()` (ASCII cases; the
answers compared in the source are ordinary input-field text). -/
def jsIsWhitespace (c : Char) : Bool :=
  c == ' ' || c == '\t' || c == '\n' || c == '\r'

/-- JavaScript `String.prototype.trim`: strips whitespace from both ends. -/
def jsTrim (s : String) : String :=
  String.mk (((s.data.dropWhile jsIsWhitespace).reverse.dropWhile jsIsWhitespace).reverse)

/-- JavaScript `String.prototype.toLowerCase` (character-wise lowering). -/
def jsToLower (s : String) : String :=
  String.mk (s.data.map Char.toLower)

/-- The comparison key used on both sides of the recovery answer check:
`x.toLowerCase().trim()`. -/
def lowTrim (s : String) : String :=
  jsTrim (jsToLower s)

/-- The two steps of the `PasswordRecovery` component. -/
inductive RecoveryStep where
  | questions
  | newPassword
deriving DecidableEq, Repr

/-- The component state touched by `handleQuestionsSubmit`: the current step,
the entered answers, and the error banner. -/
structure RecoveryState where
  step : RecoveryStep
  answers : List String
  error : Option String
deriving DecidableEq, Repr

/-- `PasswordRecovery.handleQuestionsSubmit`: no-op when the stored questions
are absent; rejects when not every question has a non-blank answer; moves to
the new-password step exactly when every answer matches the stored answer at
its position after `toLowerCase().trim()` on both sides; otherwise stays with
an error, leaving the entered answers untouched. -/
def handleQuestionsSubmit (securityQuestions : Option (List SecurityQuestion))
    (st : RecoveryState) : RecoveryState :=
  match securityQuestions with
  | none => st
  | some qs =>
    if st.answers.length ≠ qs.length ∨ ∃ a ∈ st.answers, jsTrim a = "" then
      { st with error := some "Please answer all security questions" }
    else if ∀ qa ∈ qs.zip st.answers, lowTrim qa.2 = lowTrim qa.1.answer then
      { st with step := RecoveryStep.newPassword, error := none }
    else
      { st with error := some "One or more answers are incorrect" }

/-- C7: with 5 stored questions and 5 non-blank supplied answers, the
recovery flow moves from the questions step to the new-password step exactly
when every supplied answer matches the stored answer at its position after
lowercasing and trimming both sides; any single mismatch keeps the questions
step, sets an error, and retains the entered answers. -/
theorem c7_recovery_questions_gate (qs : List SecurityQuestion)
    (st : RecoveryState) (hlen : qs.length = 5) (halen : st.answers.length = 5)
    (hstep : st.step = RecoveryStep.questions)
    (hblank : ∀ a ∈ st.answers, jsTrim a ≠ "") :
    ((handleQuestionsSubmit (some qs) st).step = RecoveryStep.newPassword ↔
      ∀ qa ∈ qs.zip st.answers, lowTrim qa.2 = lowTrim qa.1.answer) ∧
    ((∃ qa ∈ qs.zip st.answers, lowTrim qa.2 ≠ lowTrim qa.1.answer) →
      (handleQuestionsSubmit (some qs) st).step = RecoveryStep.questions ∧
      (handleQuestionsSubmit (some qs) st).answers = st.answers ∧
      (handleQuestionsSubmit (some qs) st).error =
        some "One or more answers are incorrect") := by
  have hguard : ¬(st.answers.length ≠ qs.length ∨ ∃ a ∈ st.answers, jsTrim a = "") := by
    push_neg
    exact ⟨by rw [halen, hlen], hblank⟩
  by_cases hall : ∀ qa ∈ qs.zip st.answers, lowTrim qa.2 = lowTrim qa.1.answer
  · have hres : handleQuestionsSubmit (some qs) st =
        { st with step := RecoveryStep.newPassword, error := none } := by
      simp only [handleQuestionsSubmit]
      rw [if_neg hguard, if_pos hall]
    refine ⟨?_, ?_⟩
    · rw [hres]
      exact ⟨fun _ => hall, fun _ => rfl⟩
    · rintro ⟨qa, hmem, hne⟩
      exact absurd (hall qa hmem) hne
  · have hres : handleQuestionsSubmit (some qs) st =
        { st with error := some "One or more answers are incorrect" } := by
      simp only [handleQuestionsSubmit]
      rw [if_neg hguard, if_neg hall]
    refine ⟨?_, ?_⟩
    · rw [hres]
      refine ⟨fun h => ?_, fun h => absurd h hall⟩
      rw [show ({ st with error := some "One or more answers are incorrect" } :
        RecoveryState).step = st.step from rfl, hstep] at h
      exact absurd h (by decide)
    · intro _
      rw [hres]
      exact ⟨hstep, rfl, rfl⟩

/-- Concrete stored questions for the C7 witness. -/
def c7StoredQuestions : List SecurityQuestion :=
  [{ question := "What was the name of your first pet?", answer := "Rex" },
   { question := "What was your childhood nickname?", answer := "Buddy" },
   { question := "In what city were you born?", answer := "Paris" },
   { question := "What is the name of your favorite childhood teacher?", answer := "Smith" },
   { question := "What is your mothers maiden name?", answer := "Jones" }]

/-- Concrete component state for the C7 witness: answers differing from the
stored ones only in case and surrounding whitespace. -/
def c7EnteredState : RecoveryState :=
  { step := RecoveryStep.questions
    answers := ["rex", " buddy", "PARIS", "smith ", " jones "]
    error := none }

/-- Witness for C7: the matching concrete answers reach the new-password
step. -/
theorem c7_recovery_questions_gate_witness :
    (handleQuestionsSubmit (some c7StoredQuestions) c7EnteredState).step =
      RecoveryStep.newPassword :=
  (c7_recovery_questions_gate c7StoredQuestions c7EnteredState (by decide)
    (by decide) (by decide) (by decide)).1.mpr (by decide)

/-- C5: with a stored hash that the supplied current password does not
verify against, updateMasterPassword reports failure and leaves the whole
state — in particular the stored hash and the stored encrypted blob —
unchanged. -/
theorem c5_wrong_current_password_safe (s : AuthState) (cur newPw : String)
    (h : DerivedKey) (hh : getMasterPasswordHash s = some h)
    (hv : hashMasterPassword cur ≠ h) :
    (updateMasterPassword s cur newPw).1 = false ∧
    (updateMasterPassword s cur newPw).2 = s := by
  have hvb : verifyMasterPassword cur h = false := by
    simp [verifyMasterPassword]
    exact hv
  simp [updateMasterPassword, hh, hvb]

/-- Concrete vault state for the C5 witness: hash and blob under the
password "right". -/
def c5State : AuthState :=
  { store := [(masterHashKey, SVal.hash (hashMasterPassword "right")),
              (passwordsKey,
                SVal.blob (encryptData (PlainData.entriesJson []) "right"))]
    masterPassword := some "right"
    isAuthenticated := true }

/-- Witness for C5 at a concrete state and a wrong current password. -/
theorem c5_wrong_current_password_safe_witness :
    (updateMasterPassword c5State "wrong" "brandNew1").1 = false ∧
    (updateMasterPassword c5State "wrong" "brandNew1").2 = c5State :=
  c5_wrong_current_password_safe c5State "wrong" "brandNew1"
    (hashMasterPassword "right") (by decide) (by decide)

/-- Concrete state refuting C3 for the LocalStorage service: the blob is
encrypted under "qqqq" while the session password is "pppp". -/
def c3LocalState : AuthState :=
  { store := [(passwordsKey,
                SVal.blob (encryptData (PlainData.entriesJson []) "qqqq")),
              (masterHashKey, SVal.hash (hashMasterPassword "pppp"))]
    masterPassword := some "pppp"
    isAuthenticated := true }

/-- Concrete state refuting C3 for the SQLite service, same mismatch. -/
def c3SqliteState : SqliteState :=
  { db := some
      { settings := [(sqliteMasterHashKey, SVal.hash (hashMasterPassword "pppp"))]
        passwords := [(sqlitePasswordsRowId,
          encryptData (PlainData.entriesJson []) "qqqq")] }
    masterPassword := some "pppp" }

/-- Counterexample to C3: in a state where the stored blob does not decrypt
under the session password, both getPasswords implementations return the
empty collection successfully instead of signalling an error. -/
theorem c3_counterexample :
    localGetPasswords c3LocalState = Except.ok [] ∧
    sqliteGetPasswords c3SqliteState = Except.ok [] := by
  constructor <;> rfl

/-- C3 (amended): a decryption failure while reading the stored credential
collection does not propagate — both getPasswords implementations catch it
and return the empty collection, so the recovery-path conversion to an empty
collection is not the only such swallow. -/
theorem c3_amended_swallowed_decrypt_failure (sL : AuthState) (sQ : SqliteState)
    (p q2 : String) (ctL ctQ : Ciphertext) (d : SqlDb)
    (hLmp : sL.masterPassword = some p)
    (hLb : lookupKV passwordsKey sL.store = some (SVal.blob ctL))
    (hLk : ctL.key ≠ pbkdf2 p encryptionSalt)
    (hQmp : sQ.masterPassword = some q2)
    (hQdb : sQ.db = some d)
    (hQb : lookupKV sqlitePasswordsRowId d.passwords = some ctQ)
    (hQk : ctQ.key ≠ pbkdf2 q2 encryptionSalt) :
    localGetPasswords sL = Except.ok [] ∧
    sqliteGetPasswords sQ = Except.ok [] := by
  constructor
  · simp [localGetPasswords, hLmp, hLb, decryptData, hLk]
  · simp [sqliteGetPasswords, hQmp, hQdb, hQb, decryptData, hQk]

/-- Witness for the amended C3 at the concrete mismatched states. -/
theorem c3_amended_swallowed_decrypt_failure_witness :
    localGetPasswords c3LocalState = Except.ok [] ∧
    sqliteGetPasswords c3SqliteState = Except.ok [] :=
  c3_amended_swallowed_decrypt_failure c3LocalState c3SqliteState "pppp" "pppp"
    (encryptData (PlainData.entriesJson []) "qqqq")
    (encryptData (PlainData.entriesJson []) "qqqq")
    { settings := [(sqliteMasterHashKey, SVal.hash (hashMasterPassword "pppp"))]
      passwords := [(sqlitePasswordsRowId,
        encryptData (PlainData.entriesJson []) "qqqq")] }
    rfl (by decide) (by decide) rfl rfl (by decide) (by decide)

/-- C10: with no session master password, both getPasswords and
savePasswords of both storage services throw `Master password not set`
before touching the stored blob (the error is produced ahead of any read or
write, so no state results from the call); with a session password set, that
error branch is unreachable — every call produces a successful result. -/
theorem c10_no_session_guard (sL : AuthState) (sQ : SqliteState)
    (esL esQ : List PasswordEntry) :
    (sL.masterPassword = none →
      localGetPasswords sL = Except.error "Master password not set" ∧
      localSavePasswords sL esL = Except.error "Master password not set") ∧
    (sQ.masterPassword = none →
      sqliteGetPasswords sQ = Except.error "Master password not set" ∧
      sqliteSavePasswords sQ esQ = Except.error "Master password not set") ∧
    (∀ p, sL.masterPassword = some p →
      (∃ r, localGetPasswords sL = Except.ok r) ∧
      (∃ r, localSavePasswords sL esL = Except.ok r)) ∧
    (∀ p, sQ.masterPassword = some p →
      (∃ r, sqliteGetPasswords sQ = Except.ok r) ∧
      (∃ r, sqliteSavePasswords sQ esQ = Except.ok r)) := by
  refine ⟨?_, ?_, ?_, ?_⟩
  · intro hnone
    exact ⟨by simp [localGetPasswords, hnone], by simp [localSavePasswords, hnone]⟩
  · intro hnone
    exact ⟨by simp [sqliteGetPasswords, hnone], by simp [sqliteSavePasswords, hnone]⟩
  · intro p hsome
    constructor
    · simp only [localGetPasswords, hsome]
      repeat' split
      all_goals exact ⟨_, rfl⟩
    · simp only [localSavePasswords, hsome]
      exact ⟨_, rfl⟩
  · intro p hsome
    constructor
    · simp only [sqliteGetPasswords, hsome]
      repeat' split
      all_goals exact ⟨_, rfl⟩
    · simp only [sqliteSavePasswords, hsome]
      repeat' split
      all_goals exact ⟨_, rfl⟩

/-- Locked local state for the C10 witness. -/
def c10LockedLocal : AuthState :=
  { store := [], masterPassword := none, isAuthenticated := false }

/-- Locked SQLite state for the C10 witness. -/
def c10LockedSqlite : SqliteState :=
  { db := some { settings := [], passwords := [] }, masterPassword := none }

/-- Unlocked local state for the C10 witness. -/
def c10OpenLocal : AuthState :=
  { store := [], masterPassword := some "pw", isAuthenticated := true }

/-- Unlocked SQLite state for the C10 witness. -/
def c10OpenSqlite : SqliteState :=
  { db := some { settings := [], passwords := [] }, masterPassword := some "pw" }

/-- Witness for C10 at concrete locked and unlocked states. -/
theorem c10_no_session_guard_witness :
    localGetPasswords c10LockedLocal = Except.error "Master password not set" ∧
    localSavePasswords c10LockedLocal [] = Except.error "Master password not set" ∧
    sqliteGetPasswords c10LockedSqlite = Except.error "Master password not set" ∧
    sqliteSavePasswords c10LockedSqlite [] = Except.error "Master password not set" ∧
    (∃ r, localGetPasswords c10OpenLocal = Except.ok r) ∧
    (∃ r, localSavePasswords c10OpenLocal [] = Except.ok r) ∧
    (∃ r, sqliteGetPasswords c10OpenSqlite = Except.ok r) ∧
    (∃ r, sqliteSavePasswords c10OpenSqlite [] = Except.ok r) := by
  obtain ⟨hA, hB, -, -⟩ := c10_no_session_guard c10LockedLocal c10LockedSqlite [] []
  obtain ⟨-, -, hC, hD⟩ := c10_no_session_guard c10OpenLocal c10OpenSqlite [] []
  exact ⟨(hA rfl).1, (hA rfl).2, (hB rfl).1, (hB rfl).2,
    (hC "pw" rfl).1, (hC "pw" rfl).2, (hD "pw" rfl).1, (hD "pw" rfl).2⟩

/-- Concrete vault state for C8: hash, security questions and blob all
present in the LocalStorage map. -/
def c8State : AuthState :=
  { store := [(masterHashKey, SVal.hash (hashMasterPassword "pw")),
              (passwordsKey,
                SVal.blob (encryptData (PlainData.entriesJson []) "pw"))]
    masterPassword := some "pw"
    isAuthenticated := true }

/-- C8 fails on `LocalStorage.resetVault`: the source removes
`this.MASTER_PASSWORD_KEY`, a property the class does not declare (its field
is `MASTER_HASH_KEY`), so the key actually removed is the string coercion of
`undefined` and the master-hash setting survives the reset — the vault is
still reported as set up afterwards. -/
theorem c8_reset_leaves_master_hash :
    hasMasterPasswordSetup (localResetVault c8State) = true ∧
    getMasterPasswordHash (localResetVault c8State) =
      some (hashMasterPassword "pw") ∧
    lookupKV passwordsKey (localResetVault c8State).store = none ∧
    (localResetVault c8State).masterPassword = none := by
  refine ⟨rfl, rfl, rfl, rfl⟩

/-- Supporting fact (not a claim): `SQLiteStorage.resetVault` does implement
the full wipe — the master-hash setting, the security-questions setting and
the blob row are deleted, both relations survive, and no other settings key
or blob row is affected. -/
theorem sqliteResetVault_wipes (s : SqliteState) (d : SqlDb)
    (hdb : s.db = some d) :
    sqliteGetSetting (sqliteResetVault s) sqliteMasterHashKey = none ∧
    sqliteGetSetting (sqliteResetVault s) sqliteQuestionsKey = none ∧
    sqliteHasMasterPasswordSetup (sqliteResetVault s) = false ∧
    (sqliteResetVault s).masterPassword = none ∧
    (∃ d2, (sqliteResetVault s).db = some d2 ∧
      lookupKV sqlitePasswordsRowId d2.passwords = none ∧
      (∀ k, k ≠ sqliteMasterHashKey → k ≠ sqliteQuestionsKey →
        lookupKV k d2.settings = lookupKV k d.settings) ∧
      (∀ rid, rid ≠ sqlitePasswordsRowId →
        lookupKV rid d2.passwords = lookupKV rid d.passwords)) := by
  have hres : sqliteResetVault s =
      { db := some
          { settings := removeKV sqliteQuestionsKey
              (removeKV sqliteMasterHashKey d.settings)
            passwords := removeKV sqlitePasswordsRowId d.passwords }
        masterPassword := none } := by
    simp [sqliteResetVault, hdb]
  rw [hres]
  refine ⟨?_, ?_, ?_, rfl, ?_⟩
  · simp [sqliteGetSetting, lookupKV_removeKV_ne, lookupKV_removeKV_self,
      sqliteQuestionsKey, sqliteMasterHashKey]
  · simp [sqliteGetSetting, lookupKV_removeKV_self]
  · simp [sqliteHasMasterPasswordSetup, sqliteGetSetting, lookupKV_removeKV_ne,
      lookupKV_removeKV_self, sqliteQuestionsKey, sqliteMasterHashKey]
  · refine ⟨_, rfl, lookupKV_removeKV_self _ _, ?_, ?_⟩
    · intro k hk1 hk2
      rw [lookupKV_removeKV_ne _ (fun hp => hk2 hp.symm),
        lookupKV_removeKV_ne _ (fun hp => hk1 hp.symm)]
    · intro rid hrid
      rw [lookupKV_removeKV_ne _ (fun hp => hrid hp.symm)]

/-- The single credentials blob row of the SQLite store, as read back. -/
def sqliteGetCredentialsBlob (s : SqliteState) : Option Ciphertext :=
  match s.db with
  | none => none
  | some d => lookupKV sqlitePasswordsRowId d.passwords

/-- C9: importing the snapshot produced by exporting the store succeeds and
yields a store observably identical to the exported one — every settings key
maps to the same value and the stored credentials blob is the same. -/
theorem c9_export_import_identity (s : SqliteState) (snap : Snapshot)
    (h : exportDatabase s = some snap) :
    (importDatabase s snap).1 = true ∧
    (∀ k, sqliteGetSetting (importDatabase s snap).2 k = sqliteGetSetting s k) ∧
    sqliteGetCredentialsBlob (importDatabase s snap).2 =
      sqliteGetCredentialsBlob s := by
  cases hdb : s.db with
  | none => rw [exportDatabase, hdb] at h; cases h
  | some d =>
    rw [exportDatabase, hdb] at h
    have hsnap : snap = { content := d } := by
      cases h
      rfl
    subst hsnap
    refine ⟨rfl, ?_, ?_⟩
    · intro k
      simp [importDatabase, sqliteGetSetting, hdb]
    · simp [importDatabase, sqliteGetCredentialsBlob, hdb]

/-- Concrete populated store for the C9 witness. -/
def c9State : SqliteState :=
  { db := some
      { settings := [(sqliteMasterHashKey, SVal.hash (hashMasterPassword "pw")),
                     (sqliteQuestionsKey, SVal.questions
                       [{ question := "In what city were you born?", answer := "Paris" }])]
        passwords := [(sqlitePasswordsRowId,
          encryptData (PlainData.entriesJson []) "pw")] }
    masterPassword := some "pw" }

/-- The snapshot exported from the C9 witness store. -/
def c9Snap : Snapshot :=
  { content :=
      { settings := [(sqliteMasterHashKey, SVal.hash (hashMasterPassword "pw")),
                     (sqliteQuestionsKey, SVal.questions
                       [{ question := "In what city were you born?", answer := "Paris" }])]
        passwords := [(sqlitePasswordsRowId,
          encryptData (PlainData.entriesJson []) "pw")] } }

/-- Witness for C9 at the concrete store. -/
theorem c9_export_import_identity_witness :
    (importDatabase c9State c9Snap).1 = true ∧
    (∀ k, sqliteGetSetting (importDatabase c9State c9Snap).2 k =
      sqliteGetSetting c9State k) ∧
    sqliteGetCredentialsBlob (importDatabase c9State c9Snap).2 =
      sqliteGetCredentialsBlob c9State :=
  c9_export_import_identity c9State c9Snap rfl

/-- C4: from a session opened with the old password over a store whose hash
and blob are under the old password, a successful rotation followed by
logout leaves a state where login with the new password succeeds and reads
back the same credential collection, while login with the old password
fails. -/
theorem c4_rotation_preserves_data (s : AuthState) (old newPw : String)
    (es : List PasswordEntry)
    (hmp : s.masterPassword = some old)
    (hh : lookupKV masterHashKey s.store = some (SVal.hash (hashMasterPassword old)))
    (hb : lookupKV passwordsKey s.store =
      some (SVal.blob (encryptData (PlainData.entriesJson es) old)))
    (hne : newPw ≠ old) :
    (updateMasterPassword s old newPw).1 = true ∧
    (login (logout (updateMasterPassword s old newPw).2) newPw).1 = true ∧
    localGetPasswords
        (login (logout (updateMasterPassword s old newPw).2) newPw).2 =
      Except.ok es ∧
    (login (logout (updateMasterPassword s old newPw).2) old).1 = false := by
  have hgmh : getMasterPasswordHash s = some (hashMasterPassword old) := by
    simp [getMasterPasswordHash, hh]
  have hv : verifyMasterPassword old (hashMasterPassword old) = true := by
    simp [verifyMasterPassword]
  have hvn : verifyMasterPassword newPw (hashMasterPassword newPw) = true := by
    simp [verifyMasterPassword]
  have hvf : verifyMasterPassword old (hashMasterPassword newPw) = false := by
    simp [verifyMasterPassword, hashMasterPassword, pbkdf2]
    exact fun hcon => hne hcon.symm
  have hget : localGetPasswords s = Except.ok es := by
    simp [localGetPasswords, hmp, hb, decryptData, encryptData, jsonParseEntries]
  have hupd : updateMasterPassword s old newPw =
      (true,
        { store := upsertKV passwordsKey
            (SVal.blob (encryptData (PlainData.entriesJson es) newPw))
            (upsertKV masterHashKey (SVal.hash (hashMasterPassword newPw)) s.store)
          masterPassword := some newPw
          isAuthenticated := s.isAuthenticated }) := by
    simp [updateMasterPassword, hgmh, hv, hget, localSavePasswords,
      storeMasterPasswordHash, setMasterPassword]
  have hlookH : lookupKV masterHashKey
      (upsertKV passwordsKey
        (SVal.blob (encryptData (PlainData.entriesJson es) newPw))
        (upsertKV masterHashKey (SVal.hash (hashMasterPassword newPw)) s.store)) =
      some (SVal.hash (hashMasterPassword newPw)) := by
    rw [lookupKV_upsertKV_ne _ _ (by decide), lookupKV_upsertKV_self]
  have hlookP : lookupKV passwordsKey
      (upsertKV passwordsKey
        (SVal.blob (encryptData (PlainData.entriesJson es) newPw))
        (upsertKV masterHashKey (SVal.hash (hashMasterPassword newPw)) s.store)) =
      some (SVal.blob (encryptData (PlainData.entriesJson es) newPw)) :=
    lookupKV_upsertKV_self _ _ _
  refine ⟨by rw [hupd], ?_, ?_, ?_⟩
  · rw [hupd]
    simp [logout, login, getMasterPasswordHash, hlookH, hvn]
  · rw [hupd]
    simp only [logout, login, getMasterPasswordHash, hlookH, hvn, if_true,
      localGetPasswords, hlookP]
    simp [decryptData, encryptData, jsonParseEntries]
  · rw [hupd]
    simp [logout, login, getMasterPasswordHash, hlookH, hvf]

/-- The credential collection used by the C4 witness. -/
def c4Entries : List PasswordEntry :=
  [{ id := "1", title := "Mail", username := "me", password := "hunter2",
     url := none, category := "Email", subcategory := none, notes := none,
     lastModified := "2024-01-01T00:00:00Z", favorite := none,
     credentialType := CredentialType.email, customFields := none }]

/-- Concrete authenticated vault state for the C4 witness. -/
def c4StartState : AuthState :=
  { store := [(masterHashKey, SVal.hash (hashMasterPassword "OldPass1")),
              (passwordsKey,
                SVal.blob (encryptData (PlainData.entriesJson c4Entries) "OldPass1"))]
    masterPassword := some "OldPass1"
    isAuthenticated := true }

/-- Witness for C4: rotating a concrete vault from "OldPass1" to "NewPass2". -/
theorem c4_rotation_preserves_data_witness :
    (updateMasterPassword c4StartState "OldPass1" "NewPass2").1 = true ∧
    (login (logout (updateMasterPassword c4StartState "OldPass1" "NewPass2").2)
      "NewPass2").1 = true ∧
    localGetPasswords
        (login (logout (updateMasterPassword c4StartState "OldPass1" "NewPass2").2)
          "NewPass2").2 = Except.ok c4Entries ∧
    (login (logout (updateMasterPassword c4StartState "OldPass1" "NewPass2").2)
      "OldPass1").1 = false :=
  c4_rotation_preserves_data c4StartState "OldPass1" "NewPass2" c4Entries rfl
    (by decide) (by decide) (by decide)
